import Mathlib

/-!
Verification of the process-execution and executable-resolution layer of
ccache (`src/execute.cpp`): the POSIX launch/wait path, the Windows launch
path (job objects, shell-shebang detection, command-line marshalling with
the 8192-character response-file overflow), and the search-path resolver
with its self-exclusion logic.

Paths are modelled as plain strings, the filesystem and the Win32 API as
explicit oracles, and each platform-specific branch of the source as a
Lean function mirroring its control flow.
-/

/-- Abstract filesystem oracle consumed by the resolver: existence of an
executable candidate (POSIX `access(..., X_OK) == 0`, Windows
`DirEntry::is_regular_file`), path canonicalization (`fs::canonical`,
`none` on failure) and the `is_ccache_executable` test applied to
canonical paths. -/
structure FileSystem where
  exists_exec : String → Bool
  canonical : String → Option String
  is_ccache : String → Bool

/-- Splits a character list on a delimiter, keeping empty segments. -/
def split_on_char (delim : Char) : List Char → List (List Char)
  | [] => [[]]
  | c :: cs =>
    if c = delim then [] :: split_on_char delim cs
    else
      match split_on_char delim cs with
      | [] => [[c]]
      | g :: gs => (c :: g) :: gs

/-- Modelled from the spec: `util::split_path_list` (declared outside
`src/`) splits the platform-delimited search-path string on the delimiter
character (`:` on POSIX). -/
def split_path_list (s : String) : List String :=
  (split_on_char ':' s.data).map String.mk

/-- The candidate paths formed for one directory of the search-path list:
`dir / name` and, on Windows, additionally `dir / name.exe`
(execute.cpp:390-395). -/
def candidate_paths (win : Bool) (dir name : String) : List String :=
  if win then [dir ++ "/" ++ name, dir ++ "/" ++ name ++ ".exe"]
  else [dir ++ "/" ++ name]

/-- The acceptance test of execute.cpp:407-418: the candidate must exist
and be executable, must canonicalize successfully, and its canonical form
must differ from the canonical exclude path and must not be a ccache
executable. -/
def valid_candidate (fs : FileSystem) (real_exclude candidate : String) : Bool :=
  fs.exists_exec candidate &&
    match fs.canonical candidate with
    | some rc => !(rc == real_exclude) && !fs.is_ccache rc
    | none => false

/-- The directory scan of execute.cpp:389-421: for each directory, in
order, the first valid candidate is returned; the empty string models the
empty `fs::path` returned when no candidate matches. -/
def search_dirs (fs : FileSystem) (win : Bool) (name real_exclude : String) :
    List String → String
  | [] => ""
  | dir :: rest =>
    match (candidate_paths win dir name).find? (valid_candidate fs real_exclude) with
    | some c => c
    | none => search_dirs fs win name real_exclude rest

/-- `find_executable_in_path` (execute.cpp:375-424). An empty search-path
list short-circuits to the empty path before the exclude path is
canonicalized; otherwise the canonical exclude path defaults to the empty
string when canonicalization fails (`value_or("")`). -/
def find_executable_in_path (fs : FileSystem) (win : Bool) (name path_list : String)
    (exclude_path : Option String) : String :=
  if path_list = "" then ""
  else
    let real_exclude :=
      match exclude_path with
      | some p => (fs.canonical p).getD ""
      | none => ""
    search_dirs fs win name real_exclude (split_path_list path_list)

/-- `fs::path::is_absolute` for POSIX-style paths. -/
def is_absolute (p : String) : Bool :=
  match p.data with
  | [] => false
  | c :: _ => c = '/'

/-- `find_executable` (execute.cpp:354-373). The result pairs the returned
path with the emitted log lines. `none` models the undefined behaviour of
`path_list = getenv("PATH")` when `PATH` is unset: `getenv` returns a null
pointer and assigning it to a `std::string` is undefined (in practice a
crash), so the "No PATH variable" branch is never reached in that case. -/
def find_executable (fs : FileSystem) (win : Bool) (config_path : String)
    (env_path : Option String) (name exclude_path : String) :
    Option (String × List String) :=
  if is_absolute name then some (name, [])
  else if config_path = "" then
    match env_path with
    | none => none
    | some p =>
      if p = "" then some ("", ["No PATH variable"])
      else some (find_executable_in_path fs win name p (some exclude_path), [])
  else some (find_executable_in_path fs win name config_path (some exclude_path), [])

/-! ## POSIX launch path -/

/-- The `errno` value of an interrupted system call. -/
def EINTR : Nat := 4

/-- glibc `WEXITSTATUS`: bits 8 to 15 of the raw wait status. -/
def wexitstatus (s : Nat) : Nat := s / 256 % 256

/-- glibc `WIFSIGNALED`: the low seven bits of the raw wait status are
neither 0 (normal exit) nor 0x7f (stopped). -/
def wifsignaled (s : Nat) : Bool := 1 ≤ s % 128 && s % 128 ≤ 126

/-- The outcome derivation of execute.cpp:340-344: a signal death with a
zero exit field is reported as `-1`, anything else as the exit field. -/
def exit_outcome (s : Nat) : Int :=
  if wexitstatus s == 0 && wifsignaled s then -1 else (wexitstatus s : Int)

/-- A raw wait status produced by the kernel for a child terminated by a
signal: the signal number in the low seven bits, optionally the core-dump
flag in bit 7, and a zero exit field. -/
def SignaledStatus (s : Nat) : Prop :=
  ∃ sig core, 1 ≤ sig ∧ sig ≤ 126 ∧ core ≤ 1 ∧ s = core * 128 + sig

/-- The wait loop of execute.cpp:325-333, driven by an oracle listing the
successive `waitpid` outcomes as `(returned value, status, errno)`
triples. `none` means the oracle ran out while the loop was still
retrying; `Except.error ()` models the thrown `core::Fatal`. -/
def wait_loop (pid : Int) : List (Int × Nat × Nat) → Option (Except Unit Nat)
  | [] => none
  | (result, status, e) :: rest =>
    if result = pid then some (Except.ok status)
    else if result == -1 && e == EINTR then wait_loop pid rest
    else some (Except.error ())

/-- The parent half of the POSIX `execute` (execute.cpp:296-345):
`fork_result` is the value `fork()` returned in the parent and the wait
oracle drives the reaping loop; `Except.error ()` models a thrown
`core::Fatal` (fork failure or a non-EINTR wait failure). -/
def execute_posix (fork_result : Int) (waits : List (Int × Nat × Nat)) :
    Option (Except Unit Int) :=
  if fork_result = -1 then some (Except.error ())
  else
    match wait_loop fork_result waits with
    | none => none
    | some (Except.error u) => some (Except.error u)
    | some (Except.ok status) => some (Except.ok (exit_outcome status))

/-! ## Windows launch path -/

/-- Reads characters until the first newline (kept) or until `n`
characters are consumed, whichever comes first. -/
def take_line : Nat → List Char → List Char
  | 0, _ => []
  | _, [] => []
  | n + 1, c :: cs => if c = '\n' then [c] else c :: take_line n cs

/-- `fgets(buf, n, fp)`: reads at most `n - 1` characters of the stream,
stopping after a newline (which is kept), and null-terminates. -/
def fgets_n (n : Nat) (contents : String) : String :=
  String.mk (take_line (n - 1) contents.data)

/-- Suffix of the character list starting at its last dot. -/
def last_dot_suffix : List Char → Option (List Char)
  | [] => none
  | c :: cs =>
    match last_dot_suffix cs with
    | some r => some r
    | none => if c = '.' then some (c :: cs) else none

/-- `fs::path::extension`: the part of the filename from its last dot
(inclusive); empty for dotless names, for `.` and `..`, and for hidden
files whose only dot is the leading one. -/
def path_extension (p : String) : String :=
  let f := (split_on_char '/' p.data).getLastD []
  if f = ['.'] ∨ f = ['.', '.'] then ""
  else
    match f with
    | [] => ""
    | _ :: rest =>
      match last_dot_suffix rest with
      | some r => String.mk r
      | none => ""

/-- ASCII lowering, as done by `util::to_lowercase`. -/
def ascii_lower (s : String) : String := String.mk (s.data.map Char.toLower)

/-- Environment consumed by `win32getshell`: the `PATH` variable (`none`
models a null `getenv` result), the `CCACHE_DETECT_SHEBANG` flag, the
readable file contents (`none` when `fopen` fails) and the filesystem
used to resolve `sh.exe`. -/
structure ShellCtx where
  env_path : Option String
  detect_shebang : Bool
  read_file : String → Option String
  fs : FileSystem

/-- `win32getshell` (execute.cpp:88-110). Note that the shebang probe is
`fgets(buf, sizeof(buf) - 1, fp)` with `char buf[10]`, so at most 8
characters of the file are read into `buf` before the comparison with the
9-character string `"#!/bin/sh"`. -/
def win32getshell (ctx : ShellCtx) (path : String) : String :=
  let sh :=
    if ascii_lower (path_extension path) == ".sh" && ctx.env_path.isSome then
      find_executable_in_path ctx.fs true "sh.exe" (ctx.env_path.getD "") none
    else ""
  if sh == "" && ctx.detect_shebang then
    match ctx.read_file path with
    | none => sh
    | some contents =>
      if fgets_n 9 contents == "#!/bin/sh" && ctx.env_path.isSome then
        find_executable_in_path ctx.fs true "sh.exe" (ctx.env_path.getD "") none
      else sh
  else sh

/-- Win32 API oracle for one `win32execute` run: the success of each API
call and the data it would report. -/
structure Win32Sys where
  in_job_query_ok : Bool
  in_job : Bool
  limits_query_ok : Bool
  kill_on_close : Bool
  breakaway_ok : Bool
  create_job_ok : Bool
  set_info_ok : Bool
  handles_ok : Bool
  tmpfile_ok : Bool
  tmpfile_suffix : String
  create_process_ok : Bool
  assign_ok : Bool
  child_exit_code : Nat

/-- External helpers used by `win32execute`: the `win32getshell`
environment, `util::format_argv_as_win32_command_string (argv, prefix,
escape_backslashes)` and `util::add_exe_suffix`. -/
structure Win32Deps where
  shell : ShellCtx
  fmt_cmd : List String → String → Bool → String
  add_exe : String → String

/-- How one `win32execute` run ends: returning a code to the caller,
terminating the process via `exit` (the `doreturn == 0` path), or
propagating a thrown `core::Fatal`. -/
inductive Win32Outcome where
  | ret (code : Int)
  | exited (code : Nat)
  | fatal
deriving DecidableEq

/-- Observable result of one `win32execute` run: its outcome, the process
creation flags, whether a fresh job object was created, the shell and
command line used, and the lifecycle of the response temporary file. -/
structure Win32Result where
  outcome : Win32Outcome
  suspended_flag : Bool
  breakaway_flag : Bool
  fresh_job : Bool
  shell_used : String
  cmdline : String
  tmp_created : Bool
  tmp_path : String
  tmp_contents : String
  tmp_exists_after : Bool
deriving DecidableEq

/-- A return taken before any temporary file or job bookkeeping exists. -/
def earlyExit (o : Win32Outcome) (susp brk : Bool) : Win32Result :=
  { outcome := o, suspended_flag := susp, breakaway_flag := brk, fresh_job := false,
    shell_used := "", cmdline := "", tmp_created := false, tmp_path := "",
    tmp_contents := "", tmp_exists_after := false }

/-- execute.cpp:243-289: `CreateProcess`, job assignment, resume, wait and
exit-code retrieval. The scoped `tmp_file_remover` finalizer runs on every
return path, but not on the `exit()` path, which does not unwind the
stack. -/
def win32finish (sys : Win32Sys) (doreturn susp brk fresh : Bool)
    (sh cmdline : String) (tmpc : Bool) (tmp contents : String) : Win32Result :=
  if !sys.create_process_ok then
    { outcome := Win32Outcome.ret (-1), suspended_flag := susp, breakaway_flag := brk,
      fresh_job := fresh, shell_used := sh, cmdline := cmdline, tmp_created := tmpc,
      tmp_path := tmp, tmp_contents := contents, tmp_exists_after := false }
  else if fresh && !sys.assign_ok then
    { outcome := Win32Outcome.ret (-1), suspended_flag := susp, breakaway_flag := brk,
      fresh_job := fresh, shell_used := sh, cmdline := cmdline, tmp_created := tmpc,
      tmp_path := tmp, tmp_contents := contents, tmp_exists_after := false }
  else if !doreturn then
    { outcome := Win32Outcome.exited sys.child_exit_code, suspended_flag := susp,
      breakaway_flag := brk, fresh_job := fresh, shell_used := sh, cmdline := cmdline,
      tmp_created := tmpc, tmp_path := tmp, tmp_contents := contents,
      tmp_exists_after := tmpc }
  else
    { outcome := Win32Outcome.ret (sys.child_exit_code : Int), suspended_flag := susp,
      breakaway_flag := brk, fresh_job := fresh, shell_used := sh, cmdline := cmdline,
      tmp_created := tmpc, tmp_path := tmp, tmp_contents := contents,
      tmp_exists_after := false }

/-- `win32execute` (execute.cpp:112-290). The job-limit query only runs
when the process is already in a job; escaping (break-away allowed and
kill-on-close inactive) clears `is_process_in_job` and selects the
break-away and suspended creation flags; a fresh job object is created
exactly when `is_process_in_job` ended up false. Oversized rendered
command lines (length strictly above 8192) are rewritten through a
response temporary file created under `temp_dir`. -/
def win32execute (sys : Win32Sys) (deps : Win32Deps) (path : String)
    (argv : List String) (doreturn : Bool) (temp_dir : String) : Win32Result :=
  if !sys.in_job_query_ok then earlyExit (Win32Outcome.ret 0) false false
  else if sys.in_job && !sys.limits_query_ok then earlyExit (Win32Outcome.ret 0) false false
  else
    let escape := sys.in_job && !sys.kill_on_close && sys.breakaway_ok
    let still_in_job := sys.in_job && !escape
    let susp := escape || !sys.in_job
    let brk := escape
    if !still_in_job && !sys.create_job_ok then earlyExit (Win32Outcome.ret (-1)) susp brk
    else if !still_in_job && !sys.set_info_ok then earlyExit (Win32Outcome.ret (-1)) susp brk
    else
      let fresh := !still_in_job
      let sh := win32getshell deps.shell path
      let path1 := if sh == "" then path else sh
      if !sys.handles_ok then
        { earlyExit (Win32Outcome.ret (-1)) susp brk with
            fresh_job := fresh, shell_used := sh }
      else
        let args0 := deps.fmt_cmd argv sh false
        let full_path := deps.add_exe path1
        if args0.length > 8192 then
          if !sys.tmpfile_ok then
            { earlyExit Win32Outcome.fatal susp brk with
                fresh_job := fresh, shell_used := sh }
          else
            let tmp := temp_dir ++ "/cmd_args" ++ sys.tmpfile_suffix
            let contents := deps.fmt_cmd argv.tail sh true
            let args1 := "\"" ++ full_path ++ "\" \"@" ++ tmp ++ "\""
            win32finish sys doreturn susp brk fresh sh args1 true tmp contents
        else win32finish sys doreturn susp brk fresh sh args0 false "" ""

/-! ## Concrete fixtures used to instantiate the theorems -/

/-- A filesystem with no executables and no canonicalizable paths. -/
def emptyFS : FileSystem :=
  { exists_exec := fun _ => false, canonical := fun _ => none, is_ccache := fun _ => false }

/-- Two directories both holding an executable `cc`; the exclude path
`/self/cc` is a symlink to `/real/ccache`, a ccache executable. -/
def twoDirFS : FileSystem :=
  { exists_exec := fun p => p == "/a/cc" || p == "/b/cc"
    canonical := fun p => if p == "/self/cc" then some "/real/ccache" else some p
    is_ccache := fun p => p == "/real/ccache" }

/-- Everything exists and is executable, yet nothing canonicalizes. -/
def noCanonFS : FileSystem :=
  { exists_exec := fun _ => true, canonical := fun _ => none, is_ccache := fun _ => false }

/-- Everything exists; only the stale path `/gone/cc` fails to
canonicalize. -/
def staleExcludeFS : FileSystem :=
  { exists_exec := fun _ => true
    canonical := fun p => if p == "/gone/cc" then none else some p
    is_ccache := fun _ => false }

/-- A filesystem holding a resolvable `sh.exe` under `/bin`. -/
def shellFS : FileSystem :=
  { exists_exec := fun p => p == "/bin/sh.exe", canonical := fun p => some p
    is_ccache := fun _ => false }

/-- Shebang detection enabled, `PATH=/bin`, and a readable script whose
first line is exactly `#!/bin/sh`. -/
def shebangCtx : ShellCtx :=
  { env_path := some "/bin", detect_shebang := true
    read_file := fun p => if p == "/myscript" then some "#!/bin/sh\nexit 0\n" else none
    fs := shellFS }

/-- No `PATH`, no shebang detection, nothing readable. -/
def quietShell : ShellCtx :=
  { env_path := none, detect_shebang := false, read_file := fun _ => none, fs := emptyFS }

/-- Trivial marshalling helpers: a one-character command line. -/
def depsTriv : Win32Deps :=
  { shell := quietShell, fmt_cmd := fun _ _ _ => "x", add_exe := fun s => s }

/-- A rendered command line of 8193 characters, one above the response-file
threshold. -/
def bigCmd : String := String.mk (List.replicate 8193 'a')

/-- Marshalling helpers whose plain rendering overflows the threshold and
whose escaped rendering is the marker string `TAIL`. -/
def depsBig : Win32Deps :=
  { shell := quietShell
    fmt_cmd := fun _ _ escape => if escape then "TAIL" else bigCmd
    add_exe := fun s => s ++ ".exe" }

/-- All Win32 API calls succeed; the current process is not in a job. -/
def sysFree : Win32Sys :=
  { in_job_query_ok := true, in_job := false, limits_query_ok := true
    kill_on_close := false, breakaway_ok := false, create_job_ok := true
    set_info_ok := true, handles_ok := true, tmpfile_ok := true
    tmpfile_suffix := ".123", create_process_ok := true, assign_ok := true
    child_exit_code := 0 }

/-- The current process is in a job that neither kills on close nor allows
break-away; all API calls succeed. -/
def sysStuckJob : Win32Sys :=
  { sysFree with in_job := true }

/-- The current process is in a job that allows break-away and does not
kill on close; all API calls succeed. -/
def sysEscapeJob : Win32Sys :=
  { sysFree with in_job := true, breakaway_ok := true }

/-! ## Helper lemmas about the resolver scan -/

theorem search_dirs_eq_find (fs : FileSystem) (win : Bool) (name rex : String) :
    ∀ ds : List String,
      search_dirs fs win name rex ds =
        ((ds.flatMap fun d => candidate_paths win d name).find?
          (valid_candidate fs rex)).getD "" := by
  intro ds
  induction ds with
  | nil => rfl
  | cons d rest ih =>
    rw [search_dirs, List.flatMap_cons, List.find?_append]
    cases h : (candidate_paths win d name).find? (valid_candidate fs rex) with
    | some c => simp [h]
    | none => simp [h, ih]

theorem search_dirs_valid (fs : FileSystem) (win : Bool) (name rex : String) :
    ∀ ds : List String, search_dirs fs win name rex ds ≠ "" →
      valid_candidate fs rex (search_dirs fs win name rex ds) = true := by
  intro ds
  induction ds with
  | nil => intro h; exact absurd rfl h
  | cons d rest ih =>
    intro h
    rw [search_dirs] at h ⊢
    cases hf : (candidate_paths win d name).find? (valid_candidate fs rex) with
    | some c => exact List.find?_some hf
    | none =>
      rw [hf] at h
      exact ih h

theorem valid_candidate_canonical (fs : FileSystem) (rex c : String)
    (h : valid_candidate fs rex c = true) :
    ∃ rc, fs.canonical c = some rc ∧ rc ≠ rex ∧ fs.is_ccache rc = false := by
  unfold valid_candidate at h
  cases hc : fs.canonical c with
  | none => rw [hc] at h; simp at h
  | some rc =>
    rw [hc] at h
    simp only [Bool.and_eq_true, Bool.not_eq_true'] at h
    refine ⟨rc, rfl, ?_, h.2.2⟩
    intro hrc
    rw [hrc] at h
    simp at h

/-! ## Claims about the executable resolver -/

/-- C7: resolution of an absolute name returns the name unchanged for
every search-path configuration and exclude path, and performs no scan:
the result is independent of the filesystem oracle, the configured search
path and the `PATH` environment value. -/
theorem find_executable_absolute_identity (fs fs2 : FileSystem) (win win2 : Bool)
    (cfg cfg2 : String) (env env2 : Option String) (name ex ex2 : String)
    (h : is_absolute name = true) :
    find_executable fs win cfg env name ex = some (name, [])
  ∧ find_executable fs win cfg env name ex =
      find_executable fs2 win2 cfg2 env2 name ex2 := by
  constructor <;> simp [find_executable, h]

/-- C7 witness: the absolute name `/usr/bin/cc` resolves to itself under
two entirely different configurations. -/
theorem find_executable_absolute_identity_inst :
    find_executable emptyFS false "" none "/usr/bin/cc" "/x" = some ("/usr/bin/cc", [])
  ∧ find_executable emptyFS false "" none "/usr/bin/cc" "/x" =
      find_executable twoDirFS true "/a:/b" (some "/b") "/usr/bin/cc" "/y" :=
  find_executable_absolute_identity emptyFS twoDirFS false true "" "/a:/b" none
    (some "/b") "/usr/bin/cc" "/x" "/y" (by decide)

/-- C9: called directly with an empty search-path list, the path-search
resolver returns the empty path immediately; the result does not depend
on the filesystem oracle (so the exclude path is not canonicalized and
nothing is probed), and the function emits no diagnostic. -/
theorem find_executable_in_path_empty_list (fs fs2 : FileSystem) (win win2 : Bool)
    (name name2 : String) (ex ex2 : Option String) :
    find_executable_in_path fs win name "" ex = ""
  ∧ find_executable_in_path fs win name "" ex =
      find_executable_in_path fs2 win2 name2 "" ex2 :=
  ⟨rfl, rfl⟩

/-- C2: with a non-empty search-path list, the resolver returns the first
candidate — directories scanned left to right, each contributing
`dir/name` and, on Windows, `dir/name.exe` — that passes the validity
test (exists and is executable, canonicalizes to something different from
the canonical exclude path, and is not a ccache executable after symlink
resolution); the result is empty when no candidate passes, a non-empty
result always passes the test, and a non-empty result never shares its
canonical path with a canonicalizable exclude path. -/
theorem find_executable_in_path_first_valid (fs : FileSystem) (win : Bool)
    (name path_list ex : String) (hpl : path_list ≠ "") :
    find_executable_in_path fs win name path_list (some ex) =
      (((split_path_list path_list).flatMap fun d => candidate_paths win d name).find?
        (valid_candidate fs ((fs.canonical ex).getD ""))).getD ""
  ∧ (find_executable_in_path fs win name path_list (some ex) ≠ "" →
      valid_candidate fs ((fs.canonical ex).getD "")
        (find_executable_in_path fs win name path_list (some ex)) = true)
  ∧ (find_executable_in_path fs win name path_list (some ex) ≠ "" →
      (fs.canonical ex).isSome = true →
      fs.canonical (find_executable_in_path fs win name path_list (some ex)) ≠
        fs.canonical ex) := by
  have hre : find_executable_in_path fs win name path_list (some ex) =
      search_dirs fs win name ((fs.canonical ex).getD "") (split_path_list path_list) := by
    simp [find_executable_in_path, hpl]
  refine ⟨?_, ?_, ?_⟩
  · rw [hre, search_dirs_eq_find]
  · intro h
    rw [hre] at h ⊢
    exact search_dirs_valid _ _ _ _ _ h
  · intro h hsome heq
    rw [hre] at h heq
    obtain ⟨e, hee⟩ := Option.isSome_iff_exists.mp hsome
    obtain ⟨rc, hrc, hne, _⟩ :=
      valid_candidate_canonical _ _ _ (search_dirs_valid _ _ _ _ _ h)
    rw [hrc, hee] at heq
    rw [hee] at hne
    exact hne (by simpa using heq)

/-- C2 witness: with `cc` present in both `/a` and `/b` and the exclude
path a symlink to the ccache binary, the left-to-right scan of `/a:/b`
is characterized by the first-match equation and its result `/a/cc`
passes the validity test and avoids the canonical exclude path. -/
theorem find_executable_in_path_first_valid_inst :
    find_executable_in_path twoDirFS false "cc" "/a:/b" (some "/self/cc") =
      (((split_path_list "/a:/b").flatMap fun d => candidate_paths false d "cc").find?
        (valid_candidate twoDirFS ((twoDirFS.canonical "/self/cc").getD ""))).getD ""
  ∧ (find_executable_in_path twoDirFS false "cc" "/a:/b" (some "/self/cc") ≠ "" →
      valid_candidate twoDirFS ((twoDirFS.canonical "/self/cc").getD "")
        (find_executable_in_path twoDirFS false "cc" "/a:/b" (some "/self/cc")) = true)
  ∧ (find_executable_in_path twoDirFS false "cc" "/a:/b" (some "/self/cc") ≠ "" →
      (twoDirFS.canonical "/self/cc").isSome = true →
      twoDirFS.canonical (find_executable_in_path twoDirFS false "cc" "/a:/b" (some "/self/cc")) ≠
        twoDirFS.canonical "/self/cc") :=
  find_executable_in_path_first_valid twoDirFS false "cc" "/a:/b" "/self/cc" (by decide)

/-- C10 (counterexample): with the exclude path failing to canonicalize —
here nothing canonicalizes — an existing, executable candidate that is
string-equal to the exclude path is still not returned: the scan yields
the empty path, because the candidate's own canonicalization fails in the
same way. -/
theorem stale_exclude_not_returned_cex :
    noCanonFS.canonical "/usr/bin/cc" = none
  ∧ noCanonFS.exists_exec "/usr/bin/cc" = true
  ∧ find_executable_in_path noCanonFS false "cc" "/usr/bin" (some "/usr/bin/cc") = "" :=
  ⟨rfl, rfl, rfl⟩

/-- C10 (amended): when canonicalization of the exclude path fails, the
resolver substitutes the empty path, so the scan proceeds exactly as if
the self-exclusion comparand were the empty path — the comparison cannot
reject any candidate that canonicalizes successfully — yet a candidate
string-equal to the exclude path is never returned, since its own
canonicalization fails identically. -/
theorem find_executable_in_path_stale_exclude (fs : FileSystem) (win : Bool)
    (name path_list ex : String) (hex : fs.canonical ex = none) (hpl : path_list ≠ "") :
    find_executable_in_path fs win name path_list (some ex) =
      search_dirs fs win name "" (split_path_list path_list)
  ∧ (find_executable_in_path fs win name path_list (some ex) ≠ "" →
      find_executable_in_path fs win name path_list (some ex) ≠ ex) := by
  have hre : find_executable_in_path fs win name path_list (some ex) =
      search_dirs fs win name ((fs.canonical ex).getD "") (split_path_list path_list) := by
    simp [find_executable_in_path, hpl]
  rw [hex] at hre
  refine ⟨hre, ?_⟩
  intro h heq
  rw [hre] at h heq
  obtain ⟨rc, hrc, _, _⟩ :=
    valid_candidate_canonical _ _ _ (search_dirs_valid _ _ _ _ _ h)
  rw [heq, hex] at hrc
  exact Option.noConfusion hrc

/-- C10 witness: with only the exclude path `/gone/cc` failing to
canonicalize, resolution over `/a` proceeds with an empty comparand and
never returns `/gone/cc` itself. -/
theorem find_executable_in_path_stale_exclude_inst :
    find_executable_in_path staleExcludeFS false "cc" "/a" (some "/gone/cc") =
      search_dirs staleExcludeFS false "cc" "" (split_path_list "/a")
  ∧ (find_executable_in_path staleExcludeFS false "cc" "/a" (some "/gone/cc") ≠ "" →
      find_executable_in_path staleExcludeFS false "cc" "/a" (some "/gone/cc") ≠ "/gone/cc") :=
  find_executable_in_path_stale_exclude staleExcludeFS false "cc" "/a" "/gone/cc" rfl
    (by decide)

/-- C5: with an empty configured search path the code assigns
`getenv("PATH")` to a `std::string`; when `PATH` is truly absent `getenv`
returns a null pointer and the assignment is undefined behaviour
(modelled as `none`), so the promised recoverable outcome — empty result
plus the "No PATH variable" diagnostic — is produced only when `PATH` is
present but empty, and never in the absent case the message describes. -/
theorem find_executable_no_path_variable :
    is_absolute "cc" = false
  ∧ find_executable emptyFS false "" none "cc" "/usr/lib/ccache/cc" = none
  ∧ find_executable emptyFS false "" (some "") "cc" "/usr/lib/ccache/cc" =
      some ("", ["No PATH variable"]) :=
  ⟨rfl, rfl, rfl⟩

/-! ## Claims about the POSIX launch path -/

theorem wait_loop_skips_eintr (pid : Int) (s : Nat) (hpid : pid ≠ -1) :
    ∀ (n : Nat) (l : List (Int × Nat × Nat)),
      wait_loop pid (List.replicate n (-1, s, EINTR) ++ l) = wait_loop pid l := by
  intro n
  induction n with
  | zero => intro l; rfl
  | succ m ih =>
    intro l
    rw [List.replicate_succ, List.cons_append, wait_loop]
    have hne : ¬((-1 : Int) = pid) := fun hcontra => hpid hcontra.symm
    rw [if_neg hne]
    simpa using ih l

/-- C1: outcome derivation for reaped children. A status produced by a
signal-killed child (signal number in the low seven bits, optional
core-dump flag, zero exit field) is reported as the sentinel `-1`; a
status produced by a normal exit with code `c` is reported as `c`, and in
particular a normal exit with code 0 is reported as 0; `execute`
propagates the derived outcome of the reaped status. -/
theorem execute_outcome_signal_override (s t c : Nat) (pid : Int)
    (waits : List (Int × Nat × Nat)) (hs : SignaledStatus s) (ht : t = c * 256)
    (hc : c < 256) (hpid : pid ≠ -1)
    (hw : wait_loop pid waits = some (Except.ok s)) :
    exit_outcome s = -1
  ∧ exit_outcome t = (c : Int)
  ∧ (c = 0 → exit_outcome t = 0)
  ∧ execute_posix pid waits = some (Except.ok (-1)) := by
  obtain ⟨sig, core, h1, h2, h3, hse⟩ := hs
  have hlt : s < 256 := by omega
  have hA : wexitstatus s = 0 := by
    simp [wexitstatus, Nat.div_eq_of_lt hlt]
  have hB : wifsignaled s = true := by
    simp only [wifsignaled, Bool.and_eq_true, decide_eq_true_eq]
    omega
  have hout : exit_outcome s = -1 := by
    simp [exit_outcome, hA, hB]
  have hwex : wexitstatus t = c := by
    subst ht
    have hdiv : c * 256 / 256 = c := Nat.mul_div_cancel c (by norm_num)
    simp [wexitstatus, hdiv, Nat.mod_eq_of_lt hc]
  have hwif : wifsignaled t = false := by
    subst ht
    have hm : c * 256 % 128 = 0 := by omega
    simp [wifsignaled, hm]
  have hout2 : exit_outcome t = (c : Int) := by
    simp [exit_outcome, hwif, hwex]
  refine ⟨hout, hout2, ?_, ?_⟩
  · intro h0
    rw [hout2, h0]
    rfl
  · simp [execute_posix, hpid, hw, hout]

/-- C1 witness: status 137 (SIGKILL with the core-dump flag) is reported
as `-1`, status 0 (normal exit with code 0) as `0`, and `execute`
propagates the sentinel for the reaped status 137. -/
theorem execute_outcome_signal_override_inst :
    exit_outcome 137 = -1
  ∧ exit_outcome 0 = ((0 : Nat) : Int)
  ∧ ((0 : Nat) = 0 → exit_outcome 0 = 0)
  ∧ execute_posix 42 [(42, 137, 0)] = some (Except.ok (-1)) :=
  execute_outcome_signal_override 137 0 0 42 [(42, 137, 0)]
    ⟨9, 1, by omega, by omega, by omega, by omega⟩ rfl (by omega) (by decide) rfl

/-- C6: the wait loop retries `waitpid` transparently across any number
of EINTR interruptions — the interruption never surfaces to the caller —
while any other wait failure (a result that is neither the awaited pid
nor an EINTR-interrupted `-1`) makes `execute` abort with the fatal error
instead of returning an outcome. -/
theorem execute_wait_eintr_retry (pid r2 : Int) (n s status e2 : Nat)
    (rest : List (Int × Nat × Nat)) (hpid : pid ≠ -1) (h2 : r2 ≠ pid)
    (h3 : ¬(r2 = -1 ∧ e2 = EINTR)) :
    execute_posix pid (List.replicate n (-1, s, EINTR) ++ (pid, status, 0) :: rest) =
      some (Except.ok (exit_outcome status))
  ∧ execute_posix pid (List.replicate n (-1, s, EINTR) ++ (r2, status, e2) :: rest) =
      some (Except.error ()) := by
  have hb : (r2 == -1 && e2 == EINTR) = false := by
    by_cases hr : r2 = -1
    · by_cases he : e2 = EINTR
      · exact absurd ⟨hr, he⟩ h3
      · simp [he]
    · simp [hr]
  constructor
  · rw [execute_posix, if_neg hpid, wait_loop_skips_eintr pid s hpid n, wait_loop,
      if_pos rfl]
  · rw [execute_posix, if_neg hpid, wait_loop_skips_eintr pid s hpid n, wait_loop,
      if_neg h2, hb]
    rfl

/-- C6 witness: three EINTR interruptions before a successful reap of pid
42 yield the reaped outcome, while a fourth `waitpid` failure with errno
ECHILD aborts. -/
theorem execute_wait_eintr_retry_inst :
    execute_posix 42 (List.replicate 3 (-1, 0, EINTR) ++ (42, 0, 0) :: []) =
      some (Except.ok (exit_outcome 0))
  ∧ execute_posix 42 (List.replicate 3 (-1, 0, EINTR) ++ (-1, 0, 10) :: []) =
      some (Except.error ()) :=
  execute_wait_eintr_retry 42 (-1) 3 0 0 10 [] (by decide) (by decide) (by decide)

/-! ## Claims about the Windows launch path -/

/-- C4: the shebang trigger of `win32getshell` is dead code. The probe is
`fgets(buf, sizeof(buf) - 1, fp)` with `char buf[10]`, which reads at
most 8 characters, so the comparison with the 9-character `"#!/bin/sh"`
can never succeed: with detection enabled, `PATH=/bin` holding a
resolvable `sh.exe`, and a readable script whose leading line is exactly
`#!/bin/sh`, the probe reads only `#!/bin/s` and no shell is resolved. -/
theorem win32getshell_shebang_dead :
    fgets_n 9 "#!/bin/sh\nexit 0\n" = "#!/bin/s"
  ∧ find_executable_in_path shebangCtx.fs true "sh.exe" "/bin" none = "/bin/sh.exe"
  ∧ shebangCtx.detect_shebang = true
  ∧ shebangCtx.read_file "/myscript" = some "#!/bin/sh\nexit 0\n"
  ∧ win32getshell shebangCtx "/myscript" = "" :=
  ⟨rfl, rfl, rfl, rfl, rfl⟩

theorem win32finish_fields (sys : Win32Sys) (doreturn susp brk fresh : Bool)
    (sh cmdline : String) (tmpc : Bool) (tmp contents : String) :
    (win32finish sys doreturn susp brk fresh sh cmdline tmpc tmp contents).fresh_job = fresh
  ∧ (win32finish sys doreturn susp brk fresh sh cmdline tmpc tmp contents).suspended_flag = susp
  ∧ (win32finish sys doreturn susp brk fresh sh cmdline tmpc tmp contents).breakaway_flag = brk
  ∧ (win32finish sys doreturn susp brk fresh sh cmdline tmpc tmp contents).tmp_created = tmpc
  ∧ (win32finish sys doreturn susp brk fresh sh cmdline tmpc tmp contents).tmp_path = tmp
  ∧ (win32finish sys doreturn susp brk fresh sh cmdline tmpc tmp contents).tmp_contents = contents
  ∧ (win32finish sys doreturn susp brk fresh sh cmdline tmpc tmp contents).cmdline = cmdline := by
  unfold win32finish
  split_ifs <;> exact ⟨rfl, rfl, rfl, rfl, rfl, rfl, rfl⟩

theorem win32finish_tmp_gone (sys : Win32Sys) (susp brk fresh : Bool)
    (sh cmdline : String) (tmpc : Bool) (tmp contents : String) :
    (win32finish sys true susp brk fresh sh cmdline tmpc tmp contents).tmp_exists_after =
      false := by
  unfold win32finish
  split_ifs <;> simp_all

theorem win32execute_marshal_eq (sys : Win32Sys) (deps : Win32Deps) (path : String)
    (argv : List String) (doreturn : Bool) (temp_dir : String)
    (h1 : sys.in_job_query_ok = true) (h2 : sys.in_job = true → sys.limits_query_ok = true)
    (h3 : sys.create_job_ok = true) (h4 : sys.set_info_ok = true)
    (h5 : sys.handles_ok = true) (h6 : sys.tmpfile_ok = true) :
    win32execute sys deps path argv doreturn temp_dir =
      (if (deps.fmt_cmd argv (win32getshell deps.shell path) false).length > 8192 then
        win32finish sys doreturn
          (sys.in_job && !sys.kill_on_close && sys.breakaway_ok || !sys.in_job)
          (sys.in_job && !sys.kill_on_close && sys.breakaway_ok)
          (!(sys.in_job && !(sys.in_job && !sys.kill_on_close && sys.breakaway_ok)))
          (win32getshell deps.shell path)
          ("\"" ++ deps.add_exe (if win32getshell deps.shell path == "" then path
              else win32getshell deps.shell path) ++ "\" \"@" ++
            (temp_dir ++ "/cmd_args" ++ sys.tmpfile_suffix) ++ "\"")
          true (temp_dir ++ "/cmd_args" ++ sys.tmpfile_suffix)
          (deps.fmt_cmd argv.tail (win32getshell deps.shell path) true)
      else
        win32finish sys doreturn
          (sys.in_job && !sys.kill_on_close && sys.breakaway_ok || !sys.in_job)
          (sys.in_job && !sys.kill_on_close && sys.breakaway_ok)
          (!(sys.in_job && !(sys.in_job && !sys.kill_on_close && sys.breakaway_ok)))
          (win32getshell deps.shell path)
          (deps.fmt_cmd argv (win32getshell deps.shell path) false) false "" "") := by
  cases hij : sys.in_job with
  | false => simp [win32execute, h1, h3, h4, h5, h6, hij]
  | true => simp [win32execute, h1, h2 hij, h3, h4, h5, h6, hij]

/-- C3: on the Windows launch path (`doreturn` set), once the launch
reaches argument marshalling (job queries, job setup, handle acquisition
and temporary-file creation succeed), a rendered command line of more
than 8192 characters is replaced by a response file: the escaped
rendering of the arguments after argv[0] becomes the contents of a file
under the configured temporary directory and the command line becomes
`"exe" "@tmpfile"`; a rendering of at most 8192 characters creates no
temporary file; and on every outcome the temporary file no longer exists
when the call returns. -/
theorem win32execute_overflow_response_file (sys : Win32Sys) (deps : Win32Deps)
    (path : String) (argv : List String) (temp_dir : String)
    (h1 : sys.in_job_query_ok = true) (h2 : sys.in_job = true → sys.limits_query_ok = true)
    (h3 : sys.create_job_ok = true) (h4 : sys.set_info_ok = true)
    (h5 : sys.handles_ok = true) (h6 : sys.tmpfile_ok = true) :
    ((deps.fmt_cmd argv (win32getshell deps.shell path) false).length > 8192 →
        (win32execute sys deps path argv true temp_dir).tmp_created = true
      ∧ (win32execute sys deps path argv true temp_dir).tmp_path =
          temp_dir ++ "/cmd_args" ++ sys.tmpfile_suffix
      ∧ (win32execute sys deps path argv true temp_dir).tmp_contents =
          deps.fmt_cmd argv.tail (win32getshell deps.shell path) true
      ∧ (win32execute sys deps path argv true temp_dir).cmdline =
          "\"" ++ deps.add_exe (if win32getshell deps.shell path == "" then path
              else win32getshell deps.shell path) ++ "\" \"@" ++
            (temp_dir ++ "/cmd_args" ++ sys.tmpfile_suffix) ++ "\"")
  ∧ ((deps.fmt_cmd argv (win32getshell deps.shell path) false).length ≤ 8192 →
      (win32execute sys deps path argv true temp_dir).tmp_created = false)
  ∧ (win32execute sys deps path argv true temp_dir).tmp_exists_after = false := by
  have hme := win32execute_marshal_eq sys deps path argv true temp_dir h1 h2 h3 h4 h5 h6
  by_cases hlen : (deps.fmt_cmd argv (win32getshell deps.shell path) false).length > 8192
  · rw [if_pos hlen] at hme
    rw [hme]
    obtain ⟨hf, hsusp, hbrk, htc, htp, htco, hcl⟩ :=
      win32finish_fields sys true _ _ _ _ _ _ _ _
    exact ⟨fun _ => ⟨htc, htp, htco, hcl⟩, fun hle => absurd hlen (by omega),
      win32finish_tmp_gone sys _ _ _ _ _ _ _ _⟩
  · rw [if_neg hlen] at hme
    rw [hme]
    obtain ⟨hf, hsusp, hbrk, htc, htp, htco, hcl⟩ :=
      win32finish_fields sys true _ _ _ _ _ _ _ _
    exact ⟨fun hgt => absurd hgt hlen, fun _ => htc,
      win32finish_tmp_gone sys _ _ _ _ _ _ _ _⟩

theorem bigCmd_length : bigCmd.length = 8193 := by
  rw [bigCmd]
  show (List.replicate 8193 'a').length = 8193
  exact List.length_replicate 8193 'a'

/-- C3 witness: a 8193-character rendering overflows into the response
file `/tmp/cmd_args.123` holding the escaped tail rendering `TAIL`, the
command line becomes `"cc.exe" "@/tmp/cmd_args.123"`, and the file is
gone when the call returns. -/
theorem win32execute_overflow_response_file_inst :
    (win32execute sysFree depsBig "cc" ["cc", "x"] true "/tmp").tmp_created = true
  ∧ (win32execute sysFree depsBig "cc" ["cc", "x"] true "/tmp").tmp_path =
      "/tmp" ++ "/cmd_args" ++ sysFree.tmpfile_suffix
  ∧ (win32execute sysFree depsBig "cc" ["cc", "x"] true "/tmp").tmp_contents =
      depsBig.fmt_cmd ["x"] (win32getshell depsBig.shell "cc") true
  ∧ (win32execute sysFree depsBig "cc" ["cc", "x"] true "/tmp").tmp_exists_after = false := by
  have h := win32execute_overflow_response_file sysFree depsBig "cc" ["cc", "x"] "/tmp"
    rfl (fun _ => rfl) rfl rfl rfl rfl
  have hgt : (depsBig.fmt_cmd ["cc", "x"] (win32getshell depsBig.shell "cc") false).length >
      8192 := by
    show bigCmd.length > 8192
    rw [bigCmd_length]
    omega
  obtain ⟨ha, hb, hc⟩ := h
  obtain ⟨t1, t2, t3, t4⟩ := ha hgt
  exact ⟨t1, t2, t3, hc⟩

/-- C8 (counterexample): already inside a job whose limit flags neither
kill on close nor allow break-away, the launch still proceeds to a normal
child exit, but no fresh job object is created and no creation flags are
set: the child is not made to join a fresh job, it simply stays inside
the parent's job. -/
theorem win32execute_stuck_job_cex :
    sysStuckJob.in_job = true
  ∧ sysStuckJob.kill_on_close = false
  ∧ sysStuckJob.breakaway_ok = false
  ∧ (win32execute sysStuckJob depsTriv "cc" ["cc"] true "/tmp").fresh_job = false
  ∧ (win32execute sysStuckJob depsTriv "cc" ["cc"] true "/tmp").suspended_flag = false
  ∧ (win32execute sysStuckJob depsTriv "cc" ["cc"] true "/tmp").outcome =
      Win32Outcome.ret 0 :=
  ⟨rfl, rfl, rfl, rfl, rfl, rfl⟩

/-- C8 (amended): with the process already in a job and the limit query
succeeding — when the job neither kills on close nor allows break-away,
the launcher creates no fresh job object and sets no creation flags,
leaving the child inside the parent's existing job (which it cannot
escape, as no break-away flag is set); when break-away is allowed and
kill-on-close is not set, the child is created with the break-away and
suspended creation flags and, when the job-object calls succeed, a fresh
kill-on-close job object is created for it. -/
theorem win32execute_job_policy (sys : Win32Sys) (deps : Win32Deps) (path : String)
    (argv : List String) (doreturn : Bool) (temp_dir : String)
    (h1 : sys.in_job_query_ok = true) (h2 : sys.in_job = true)
    (h3 : sys.limits_query_ok = true) :
    (sys.kill_on_close = false → sys.breakaway_ok = false →
        (win32execute sys deps path argv doreturn temp_dir).fresh_job = false
      ∧ (win32execute sys deps path argv doreturn temp_dir).breakaway_flag = false
      ∧ (win32execute sys deps path argv doreturn temp_dir).suspended_flag = false)
  ∧ (sys.kill_on_close = false → sys.breakaway_ok = true →
        (win32execute sys deps path argv doreturn temp_dir).breakaway_flag = true
      ∧ (win32execute sys deps path argv doreturn temp_dir).suspended_flag = true
      ∧ (sys.create_job_ok = true → sys.set_info_ok = true →
          (win32execute sys deps path argv doreturn temp_dir).fresh_job = true)) := by
  constructor
  · intro hkc hbw
    refine ⟨?_, ?_, ?_⟩ <;>
      (simp only [win32execute, h1, h2, h3, hkc, hbw, Bool.not_true, Bool.not_false,
        Bool.true_and, Bool.false_and, Bool.and_false, Bool.and_true, Bool.or_false,
        Bool.false_eq_true, if_false]
       split_ifs <;>
        first
          | rfl
          | exact (win32finish_fields _ _ _ _ _ _ _ _ _ _).1
          | exact (win32finish_fields _ _ _ _ _ _ _ _ _ _).2.1
          | exact (win32finish_fields _ _ _ _ _ _ _ _ _ _).2.2.1)
  · intro hkc hbw
    refine ⟨?_, ?_, fun hcj hsi => ?_⟩
    · simp [win32execute, h1, h2, h3, hkc, hbw]
      split_ifs <;>
        first
          | rfl
          | exact (win32finish_fields _ _ _ _ _ _ _ _ _ _).2.2.1
    · simp [win32execute, h1, h2, h3, hkc, hbw]
      split_ifs <;>
        first
          | rfl
          | exact (win32finish_fields _ _ _ _ _ _ _ _ _ _).2.1
    · simp [win32execute, h1, h2, h3, hkc, hbw, hcj, hsi]
      split_ifs <;>
        first
          | rfl
          | exact (win32finish_fields _ _ _ _ _ _ _ _ _ _).1

/-- C8 witness: for a stuck job (no kill-on-close, no break-away) the
launch creates no fresh job and sets no flags; for an escapable job the
child gets the break-away and suspended flags and a fresh job. -/
theorem win32execute_job_policy_inst :
    ((win32execute sysStuckJob depsTriv "cc" ["cc"] false "/tmp").fresh_job = false
  ∧ (win32execute sysStuckJob depsTriv "cc" ["cc"] false "/tmp").breakaway_flag = false
  ∧ (win32execute sysStuckJob depsTriv "cc" ["cc"] false "/tmp").suspended_flag = false)
  ∧ ((win32execute sysEscapeJob depsTriv "cc" ["cc"] false "/tmp").breakaway_flag = true
  ∧ (win32execute sysEscapeJob depsTriv "cc" ["cc"] false "/tmp").suspended_flag = true
  ∧ (win32execute sysEscapeJob depsTriv "cc" ["cc"] false "/tmp").fresh_job = true) := by
  refine ⟨(win32execute_job_policy sysStuckJob depsTriv "cc" ["cc"] false "/tmp"
    rfl rfl rfl).1 rfl rfl, ?_⟩
  have h := (win32execute_job_policy sysEscapeJob depsTriv "cc" ["cc"] false "/tmp"
    rfl rfl rfl).2 rfl rfl
  exact ⟨h.1, h.2.1, h.2.2 rfl rfl⟩
